import Mathlib

/-!
Verification of the weather-assistant server (`script.js`): the in-memory
TTL cache, the `/api/weather` handler with its forecast normalization, and
the `/api/ai-advice` handler with its rule-based tip engine.

Conventions of the embedding:
* JS numbers that flow through the rule engine are modelled as `Option ℚ`
  (`none` stands for `undefined`, and for `NaN` after `Number(...)`).
* Timestamps (`Date.now()`, `hit.ts`, forecast `dt`) are `ℤ` milliseconds.
* `fetch` results are environment parameters: `none`/dedicated constructors
  stand for a transport or HTTP-level failure, `some payload` for a 2xx
  response whose JSON body decoded to `payload`.
* String helpers (`trim`, `toLowerCase`, `split(" ")[0]`, `includes`) are
  re-implemented structurally over `String.data` so that the kernel can
  evaluate them on concrete inputs.
-/

/-! ## String helpers (models of the JS string primitives used) -/

/-- Model of JS `String.prototype.trim`: drop whitespace at both ends. -/
def jsTrim (s : String) : String :=
  ⟨(((s.data.dropWhile Char.isWhitespace).reverse).dropWhile Char.isWhitespace).reverse⟩

/-- Model of JS `String.prototype.toLowerCase` (ASCII case folding). -/
def jsLower (s : String) : String :=
  ⟨s.data.map Char.toLower⟩

/-- Model of JS `s.includes(pat)` at the character-list level:
`pat` occurs contiguously inside `l`. -/
def hasSubList (pat : List Char) : List Char → Bool
  | [] => pat.isEmpty
  | c :: rest => pat.isPrefixOf (c :: rest) || hasSubList pat rest

/-- Model of JS `s.includes(pat)`. -/
def strIncludes (s pat : String) : Bool :=
  hasSubList pat.data s.data

/-- Model of JS `Array.prototype.join(sep)`. -/
def joinSep (sep : String) : List String → String
  | [] => ""
  | [a] => a
  | a :: b :: rest => a ++ sep ++ joinSep sep (b :: rest)

/-- Lexicographic strict order on character lists (used to state that the
fixed-width `"YYYY-MM-DD"` date strings of the forecast are ascending). -/
def charLtList : List Char → List Char → Bool
  | [], [] => false
  | [], _ :: _ => true
  | _ :: _, [] => false
  | a :: as, b :: bs => a < b || (a == b && charLtList as bs)

/-- Strict lexicographic order on strings. -/
def strLtB (a b : String) : Bool :=
  charLtList a.data b.data

/-- Reflexive lexicographic order on strings. -/
def strLeB (a b : String) : Bool :=
  a == b || strLtB a b

theorem strLtB_of_le_ne {a b : String} (h : strLeB a b = true) (hne : a ≠ b) :
    strLtB a b = true := by
  rcases Bool.or_eq_true_iff.mp h with h1 | h1
  · exact absurd (beq_iff_eq.mp h1) hne
  · exact h1

/-! ## The in-memory cache (`getCache` / `setCache`, script.js lines 92–107)

JS source:
```
const cache = new Map();
const cacheTTLms = 5 * 60 * 1000;
function getCache(key) {
  const hit = cache.get(key);
  if (!hit) return null;
  if (Date.now() - hit.ts > cacheTTLms) { cache.delete(key); return null; }
  return hit.data;
}
function setCache(key, data) { cache.set(key, { data, ts: Date.now() }); }
```
The `Map` is modelled as a function from keys to optional entries; the two
functions thread the (possibly mutated) map explicitly. -/

structure CacheEntry (α : Type) where
  data : α
  ts : ℤ
deriving Repr

/-- The cache `Map`, as a total lookup function. -/
def Cache (α : Type) : Type := String → Option (CacheEntry α)

/-- The freshly created empty `Map`. -/
def emptyCache (α : Type) : Cache α := fun _ => none

def cacheTTLms : ℤ := 5 * 60 * 1000

/-- `getCache(key)` run at time `now`: returns the hit (if any, and fresh)
together with the cache as it is after the lookup (a stale entry is
deleted). -/
def getCache {α : Type} (now : ℤ) (key : String) (c : Cache α) :
    Option α × Cache α :=
  match c key with
  | none => (none, c)
  | some hit =>
    if cacheTTLms < now - hit.ts then
      (none, fun k => if k = key then none else c k)
    else
      (some hit.data, c)

/-- `setCache(key, data)` run at time `now`. -/
def setCache {α : Type} (now : ℤ) (key : String) (data : α) (c : Cache α) :
    Cache α :=
  fun k => if k = key then some ⟨data, now⟩ else c k

/-- C3: a cached entry whose age exceeds the 5-minute TTL is never returned
and is deleted by the lookup of its key; a lookup of an absent key and of a
stale key both miss; any value that is returned comes from an entry whose
age is within the TTL; and insertion stamps the entry with the insertion
time. -/
theorem getCache_ttl_expiry {α : Type} (now : ℤ) (key : String) (c : Cache α) :
    (∀ e : CacheEntry α, c key = some e → cacheTTLms < now - e.ts →
      (getCache now key c).1 = none ∧ (getCache now key c).2 key = none) ∧
    (c key = none → getCache now key c = (none, c)) ∧
    (∀ d : α, (getCache now key c).1 = some d →
      ∃ e : CacheEntry α, c key = some e ∧ now - e.ts ≤ cacheTTLms ∧ d = e.data) ∧
    (∀ d : α, (setCache now key d c) key = some ⟨d, now⟩) := by
  refine ⟨?_, ?_, ?_, ?_⟩
  · intro e he hstale
    simp [getCache, he, hstale]
  · intro h0
    simp [getCache, h0]
  · intro d hd
    cases hc : c key with
    | none => simp [getCache, hc] at hd
    | some e =>
      by_cases hstale : cacheTTLms < now - e.ts
      · simp [getCache, hc, hstale] at hd
      · refine ⟨e, rfl, le_of_not_lt hstale, ?_⟩
        simp [getCache, hc, hstale] at hd
        exact hd.symm
  · intro d
    simp [setCache]

/-- C3 witness: a concrete entry inserted at time 0 and looked up at time
300001 (age 300001 ms > 300000 ms) misses and is purged. -/
theorem getCache_ttl_expiry_w :
    (getCache 300001 "k" (setCache 0 "k" (37 : ℤ) (emptyCache ℤ))).1 = none ∧
    (getCache 300001 "k" (setCache 0 "k" (37 : ℤ) (emptyCache ℤ))).2 "k" = none :=
  (getCache_ttl_expiry 300001 "k" (setCache 0 "k" (37 : ℤ) (emptyCache ℤ))).1
    ⟨37, 0⟩ (by simp [setCache]) (by decide)

/-- C9: a lookup of key `k` leaves every other key unchanged; an insertion
under `k` leaves every other key unchanged; and the lookup mutates the entry
under `k` itself only by deleting it, and only when it is stale. -/
theorem cache_frame {α : Type} (now : ℤ) (k k' : String) (c : Cache α)
    (v : α) (hne : k ≠ k') :
    (getCache now k c).2 k' = c k' ∧
    (setCache now k v c) k' = c k' ∧
    ((getCache now k c).2 k = c k ∨
      ((getCache now k c).2 k = none ∧
        ∃ e : CacheEntry α, c k = some e ∧ cacheTTLms < now - e.ts)) := by
  refine ⟨?_, ?_, ?_⟩
  · cases hc : c k with
    | none => simp [getCache, hc]
    | some e =>
      by_cases hstale : cacheTTLms < now - e.ts
      · simp only [getCache, hc, hstale, if_true]
        rw [if_neg (show ¬k' = k from fun h => hne h.symm)]
      · simp [getCache, hc, hstale]
  · simp only [setCache]
    rw [if_neg (show ¬k' = k from fun h => hne h.symm)]
  · cases hc : c k with
    | none => left; simp [getCache, hc]
    | some e =>
      by_cases hstale : cacheTTLms < now - e.ts
      · right
        constructor
        · simp [getCache, hc, hstale]
        · exact ⟨e, rfl, hstale⟩
      · left; simp [getCache, hc, hstale]

/-- C9 witness: with keys "a" ≠ "b", a lookup of "a" and an insertion under
"a" both leave the entry under "b" unchanged. -/
theorem cache_frame_w :
    (getCache 0 "a" (emptyCache ℤ)).2 "b" = (emptyCache ℤ) "b" ∧
    (setCache 0 "a" (5 : ℤ) (emptyCache ℤ)) "b" = (emptyCache ℤ) "b" :=
  ⟨(cache_frame 0 "a" "b" (emptyCache ℤ) 5 (by decide)).1,
   (cache_frame 0 "a" "b" (emptyCache ℤ) 5 (by decide)).2.1⟩

/-! ## The rule-based advice engine (`ruleBasedAdvice`, script.js lines 183–207)

JS source (inside the `/api/ai-advice` handler, with
`const { location = {}, current = {}, forecast = [] } = req.body || {}`):
```
const tips = [];
const t = Number(current.temp);
const feels = Number(current.feels_like);
const hum = Number(current.humidity || 0);
const wind = Number(current.wind_speed || 0);
const desc = String(current.description || "").toLowerCase();
const pop = Math.round(((forecast?.[0]?.pop) || 0) * 100);
if (!Number.isNaN(t)) {
  if (t >= 32 || feels >= 34) tips.push("It’s hot; …");
  else if (t <= 15) tips.push("Cool weather; …");
  else tips.push("Pleasant temperature; …");
}
if (hum >= 70) tips.push("High humidity; …");
if (wind >= 8) tips.push("Breezy; …");
if (desc.includes("rain") || pop >= 40) tips.push("Carry an umbrella; …");
if (desc.includes("haze") || desc.includes("smoke")) tips.push("Air quality …");
if (desc.includes("clear")) tips.push("Clear skies; …");
return (tips.length ? tips : ["Plan your day with basic precautions."])
  .slice(0, 4).map(t => `- ${t}`).join("\n");
```
`Option ℚ` fields model `undefined`/`NaN` as `none`; `x || 0` becomes
`Option.getD x 0` (JS `0 || 0` is also `0`). -/

/-- The `current` object as read by the advice handler. -/
structure AdviceCur where
  description : Option String
  temp : Option ℚ
  feels_like : Option ℚ
  humidity : Option ℚ
  wind_speed : Option ℚ

/-- A `forecast` array element as read by the advice handler. -/
structure AdviceFc where
  day : Option String
  temp : Option ℚ
  pop : Option ℚ
  description : Option String

/-- Model of JS `Math.round` on finite numbers: round half toward `+∞`. -/
def jsRound (q : ℚ) : ℤ := ⌊q + 1 / 2⌋

/-- `x >= c` where `x` may be `NaN`/`undefined` (any comparison with `NaN`
is false in JS). -/
def numGE (x : Option ℚ) (c : ℚ) : Bool :=
  match x with
  | none => false
  | some v => decide (c ≤ v)

/-- `String(current.description || "").toLowerCase()`. -/
def descOf (cur : AdviceCur) : String :=
  jsLower (cur.description.getD "")

/-- `Math.round(((forecast?.[0]?.pop) || 0) * 100)`. -/
def popOf (fc : List AdviceFc) : ℤ :=
  jsRound (((fc.head?.bind AdviceFc.pop).getD 0) * 100)

def heatTip : String := "It’s hot; wear light cotton and drink plenty of water."
def coolTip : String := "Cool weather; wear a light jacket or sweater."
def pleasantTip : String := "Pleasant temperature; ideal for outdoor tasks."
def humidityTip : String := "High humidity; choose breathable clothes and stay hydrated."
def windTip : String := "Breezy; secure loose items and avoid lightweight umbrellas."
def umbrellaTip : String := "Carry an umbrella; showers expected."
def airTip : String := "Air quality might be low; consider a mask if sensitive."
def clearTip : String := "Clear skies; good day for a walk or outing."
def genericTip : String := "Plan your day with basic precautions."

/-- The `!Number.isNaN(t)`-guarded if/else-if chain (one push at most). -/
def tempTips (cur : AdviceCur) : List String :=
  match cur.temp with
  | none => []
  | some t =>
    if decide (32 ≤ t) || numGE cur.feels_like 34 then [heatTip]
    else if decide (t ≤ 15) then [coolTip]
    else [pleasantTip]

/-- `if (hum >= 70) tips.push(…)`. -/
def humidityTips (cur : AdviceCur) : List String :=
  if decide (70 ≤ cur.humidity.getD 0) then [humidityTip] else []

/-- `if (wind >= 8) tips.push(…)`. -/
def windTips (cur : AdviceCur) : List String :=
  if decide (8 ≤ cur.wind_speed.getD 0) then [windTip] else []

/-- `if (desc.includes("rain") || pop >= 40) tips.push(…)`. -/
def rainTips (cur : AdviceCur) (fc : List AdviceFc) : List String :=
  if strIncludes (descOf cur) "rain" || decide (40 ≤ popOf fc) then [umbrellaTip] else []

/-- `if (desc.includes("haze") || desc.includes("smoke")) tips.push(…)`. -/
def airTips (cur : AdviceCur) : List String :=
  if strIncludes (descOf cur) "haze" || strIncludes (descOf cur) "smoke" then [airTip] else []

/-- `if (desc.includes("clear")) tips.push(…)`. -/
def clearTips (cur : AdviceCur) : List String :=
  if strIncludes (descOf cur) "clear" then [clearTip] else []

/-- The `tips` array after the whole decision table ran, in push order. -/
def ruleTips (cur : AdviceCur) (fc : List AdviceFc) : List String :=
  tempTips cur ++ humidityTips cur ++ windTips cur ++ rainTips cur fc
    ++ airTips cur ++ clearTips cur

/-- `(tips.length ? tips : [generic]).slice(0, 4)`. -/
def adviceTipList (cur : AdviceCur) (fc : List AdviceFc) : List String :=
  (if (ruleTips cur fc).isEmpty then [genericTip] else ruleTips cur fc).take 4

/-- The full return value of `ruleBasedAdvice()`. -/
def ruleBasedAdvice (cur : AdviceCur) (fc : List AdviceFc) : String :=
  joinSep "\n" ((adviceTipList cur fc).map (fun t => "- " ++ t))

/-! ## The `/api/ai-advice` handler (script.js lines 178–263)

The three-tier fallback: mock mode and a missing key use the rule engine;
otherwise the completion call is attempted, and a non-ok status, missing
content or empty trimmed content falls back to the rule engine; any thrown
exception is caught and answered with the fixed safety tip.  Every branch
responds via `res.json(...)`, i.e. with status 200.  (`location` from the
request body is used only to build the prompt text, which does not influence
the modelled observables.) -/

/-- Outcome of the external completion call, as seen by the handler:
an exception anywhere in the guarded block, a non-ok HTTP status, or a 2xx
response carrying `data.choices?.[0]?.message?.content` (absent = `none`). -/
inductive AiCall
  | throws
  | badStatus
  | ok (content : Option String)

/-- Server configuration relevant to the advice route. -/
structure AdviceEnv where
  useMockAI : Bool
  openaiKey : Option String
  ai : AiCall

/-- The parsed request body (`req.body`); each destructured field may be
absent. -/
structure AdviceBody where
  current : Option AdviceCur
  forecast : Option (List AdviceFc)

structure AdviceResp where
  status : ℕ
  advice : String

def emptyAdviceCur : AdviceCur := ⟨none, none, none, none, none⟩

/-- The terminal catch-branch answer:
`res.json({ advice: "- Weather looks manageable; stay safe and carry water." })`. -/
def catchAllAdvice : String := "- Weather looks manageable; stay safe and carry water."

/-- The whole `/api/ai-advice` request handler. -/
def adviceHandler (env : AdviceEnv) (body : Option AdviceBody) : AdviceResp :=
  let b := body.getD ⟨none, none⟩
  let cur := b.current.getD emptyAdviceCur
  let fc := b.forecast.getD []
  if env.useMockAI then
    ⟨200, ruleBasedAdvice cur fc⟩
  else
    match env.openaiKey with
    | none => ⟨200, ruleBasedAdvice cur fc⟩
    | some _ =>
      match env.ai with
      | .throws => ⟨200, catchAllAdvice⟩
      | .badStatus => ⟨200, ruleBasedAdvice cur fc⟩
      | .ok none => ⟨200, ruleBasedAdvice cur fc⟩
      | .ok (some content) =>
        let trimmed := jsTrim content
        ⟨200, if trimmed = "" then ruleBasedAdvice cur fc else trimmed⟩

theorem str_ne_empty_of_data_ne_nil {s : String} (h : s.data ≠ []) : s ≠ "" :=
  fun he => h (by rw [he])

theorem joinSep_cons_data_ne_nil (x : String) (hx : x.data ≠ []) (l : List String) :
    (joinSep "\n" (x :: l)).data ≠ [] := by
  cases l with
  | nil => simpa [joinSep]
  | cons b rest =>
    show (x ++ "\n" ++ joinSep "\n" (b :: rest)).data ≠ []
    simp only [String.data_append]
    intro hcontr
    rcases List.append_eq_nil.mp hcontr with ⟨h1, _⟩
    rcases List.append_eq_nil.mp h1 with ⟨h2, _⟩
    exact hx h2

theorem adviceTipList_ne_nil (cur : AdviceCur) (fc : List AdviceFc) :
    adviceTipList cur fc ≠ [] := by
  unfold adviceTipList
  cases hr : ruleTips cur fc with
  | nil => simp
  | cons a rest => simp

theorem ruleBasedAdvice_ne_empty (cur : AdviceCur) (fc : List AdviceFc) :
    ruleBasedAdvice cur fc ≠ "" := by
  unfold ruleBasedAdvice
  cases h : adviceTipList cur fc with
  | nil => exact absurd h (adviceTipList_ne_nil cur fc)
  | cons a rest =>
    apply str_ne_empty_of_data_ne_nil
    rw [List.map_cons]
    apply joinSep_cons_data_ne_nil
    simp [String.data_append]

/-- C1: whatever the request body (absent, or with missing pieces) and
whatever the configuration and the outcome of the external completion call
(including a thrown exception, a failing call, or a call with no extractable
content), the advice endpoint answers with status 200 and a non-empty
`advice` string. -/
theorem advice_endpoint_total (env : AdviceEnv) (body : Option AdviceBody) :
    (adviceHandler env body).status = 200 ∧ (adviceHandler env body).advice ≠ "" := by
  rcases env with ⟨mock, key, ai⟩
  cases mock with
  | true => exact ⟨rfl, ruleBasedAdvice_ne_empty _ _⟩
  | false =>
    cases key with
    | none => exact ⟨rfl, ruleBasedAdvice_ne_empty _ _⟩
    | some k =>
      cases ai with
      | throws =>
        refine ⟨rfl, ?_⟩
        show catchAllAdvice ≠ ""
        decide
      | badStatus => exact ⟨rfl, ruleBasedAdvice_ne_empty _ _⟩
      | ok content =>
        cases content with
        | none => exact ⟨rfl, ruleBasedAdvice_ne_empty _ _⟩
        | some s =>
          refine ⟨rfl, ?_⟩
          by_cases ht : jsTrim s = ""
          · have hadv : (adviceHandler ⟨false, some k, AiCall.ok (some s)⟩ body).advice
                = ruleBasedAdvice ((body.getD ⟨none, none⟩).current.getD emptyAdviceCur)
                    ((body.getD ⟨none, none⟩).forecast.getD []) := by
              simp [adviceHandler, ht]
            rw [hadv]
            exact ruleBasedAdvice_ne_empty _ _
          · have hadv : (adviceHandler ⟨false, some k, AiCall.ok (some s)⟩ body).advice
                = jsTrim s := by
              simp [adviceHandler, ht]
            rw [hadv]
            exact ht

/-! ## Rule-engine claims -/

theorem mem_singleton_if {x y : String} {b : Bool}
    (h : x ∈ (if b then [y] else ([] : List String))) : x = y := by
  cases b with
  | false => simp at h
  | true => simpa using h

theorem mem_tempTips {cur : AdviceCur} {x : String} (h : x ∈ tempTips cur) :
    x = heatTip ∨ x = coolTip ∨ x = pleasantTip := by
  rw [tempTips] at h
  cases hT : cur.temp with
  | none => rw [hT] at h; simp at h
  | some t =>
    rw [hT] at h
    simp only [] at h
    split_ifs at h <;> simp at h <;> tauto

theorem popOf_nil : popOf ([] : List AdviceFc) = 0 := by
  simp only [popOf, List.head?_nil, Option.bind, Option.getD_none, jsRound]
  norm_num

/-- The fixed input of the determinism property. -/
def detCur : AdviceCur := ⟨some "light rain", some 36, none, some 80, some 10⟩

/-- The fixed forecast of the determinism property (`pop = 0.5`). -/
def detFc : List AdviceFc := [⟨some "2025-01-01", some 20, some (1 / 2), some "light rain"⟩]

/-- C6: on `temp = 36`, `humidity = 80`, `wind_speed = 10`,
`description = "light rain"`, `forecast[0].pop = 0.5` the rule engine yields,
in this order, the heat, humidity, wind and umbrella tips, truncated to
exactly 4; and in general the result is the 4-element cap of the decision
table's push-order list, never re-sorted. -/
theorem rule_engine_fixed_order :
    adviceTipList detCur detFc = [heatTip, humidityTip, windTip, umbrellaTip] ∧
    ∀ (cur : AdviceCur) (fc : List AdviceFc),
      (adviceTipList cur fc).length ≤ 4 ∧
      (ruleTips cur fc ≠ [] → adviceTipList cur fc = (ruleTips cur fc).take 4) := by
  refine ⟨by decide, ?_⟩
  intro cur fc
  constructor
  · rw [adviceTipList, List.length_take]
    exact min_le_left _ _
  · intro h
    have hb : ¬((ruleTips cur fc).isEmpty = true) := by
      simpa [List.isEmpty_eq_true] using h
    simp [adviceTipList, hb]

/-- C6 witness: the theorem applied at the fixed input, with the cap
equality instantiated there. -/
theorem rule_engine_fixed_order_w :
    adviceTipList detCur detFc = [heatTip, humidityTip, windTip, umbrellaTip] ∧
    adviceTipList detCur detFc = (ruleTips detCur detFc).take 4 :=
  ⟨rule_engine_fixed_order.1,
   (rule_engine_fixed_order.2 detCur detFc).2 (by decide)⟩

/-- C7: when `temp` is not a valid number and no other condition of the
decision table holds, the rule engine returns exactly the single generic
precautions tip. -/
theorem rule_engine_generic_default (cur : AdviceCur) (fc : List AdviceFc)
    (ht : cur.temp = none)
    (hh : ¬(70 : ℚ) ≤ cur.humidity.getD 0)
    (hw : ¬(8 : ℚ) ≤ cur.wind_speed.getD 0)
    (hr : strIncludes (descOf cur) "rain" = false)
    (hp : ¬(40 : ℤ) ≤ popOf fc)
    (hz : strIncludes (descOf cur) "haze" = false)
    (hs : strIncludes (descOf cur) "smoke" = false)
    (hc : strIncludes (descOf cur) "clear" = false) :
    adviceTipList cur fc = [genericTip] := by
  have htips : ruleTips cur fc = [] := by
    simp [ruleTips, tempTips, humidityTips, windTips, rainTips, airTips, clearTips,
      ht, hr, hz, hs, hc, decide_eq_false hh, decide_eq_false hw, decide_eq_false hp]
  simp [adviceTipList, htips]

/-- C7 witness: an all-absent `current` and an empty forecast produce
exactly the generic tip. -/
theorem rule_engine_generic_default_w :
    adviceTipList emptyAdviceCur [] = [genericTip] :=
  rule_engine_generic_default emptyAdviceCur [] rfl (by decide) (by decide)
    (by decide) (by rw [popOf_nil]; decide) (by decide) (by decide) (by decide)

/-- C10: an absent `humidity` (respectively `wind_speed`) is read as 0, so
the breathability (wind-safety) tip never fires; an empty forecast gives a
rounded rain probability of 0, so the umbrella tip fires exactly when the
description contains "rain". -/
theorem rule_engine_absent_defaults (cur : AdviceCur) (fc : List AdviceFc) :
    (cur.humidity = none → humidityTip ∉ ruleTips cur fc) ∧
    (cur.wind_speed = none → windTip ∉ ruleTips cur fc) ∧
    (fc = [] → popOf fc = 0 ∧
      (umbrellaTip ∈ ruleTips cur fc ↔ strIncludes (descOf cur) "rain" = true)) := by
  refine ⟨?_, ?_, ?_⟩
  · intro h hmem
    have hhum : humidityTips cur = [] := by
      simp [humidityTips, h, show decide ((70 : ℚ) ≤ 0) = false from by decide]
    rw [ruleTips, hhum] at hmem
    simp only [List.mem_append, List.not_mem_nil, or_false, false_or] at hmem
    rcases hmem with (((h1 | h1) | h1) | h1) | h1
    · rcases mem_tempTips h1 with h2 | h2 | h2 <;> exact absurd h2 (by decide)
    · exact absurd (mem_singleton_if h1) (by decide)
    · exact absurd (mem_singleton_if h1) (by decide)
    · exact absurd (mem_singleton_if h1) (by decide)
    · exact absurd (mem_singleton_if h1) (by decide)
  · intro h hmem
    have hwind : windTips cur = [] := by
      simp [windTips, h, show decide ((8 : ℚ) ≤ 0) = false from by decide]
    rw [ruleTips, hwind] at hmem
    simp only [List.mem_append, List.not_mem_nil, or_false, false_or] at hmem
    rcases hmem with (((h1 | h1) | h1) | h1) | h1
    · rcases mem_tempTips h1 with h2 | h2 | h2 <;> exact absurd h2 (by decide)
    · exact absurd (mem_singleton_if h1) (by decide)
    · exact absurd (mem_singleton_if h1) (by decide)
    · exact absurd (mem_singleton_if h1) (by decide)
    · exact absurd (mem_singleton_if h1) (by decide)
  · rintro rfl
    refine ⟨popOf_nil, ?_, ?_⟩
    · intro hmem
      rw [ruleTips] at hmem
      simp only [List.mem_append] at hmem
      rcases hmem with ((((h1 | h1) | h1) | h1) | h1) | h1
      · rcases mem_tempTips h1 with h2 | h2 | h2 <;> exact absurd h2 (by decide)
      · exact absurd (mem_singleton_if h1) (by decide)
      · exact absurd (mem_singleton_if h1) (by decide)
      · by_cases hcond :
          (strIncludes (descOf cur) "rain" || decide ((40 : ℤ) ≤ popOf [])) = true
        · rcases Bool.or_eq_true_iff.mp hcond with hx | hx
          · exact hx
          · rw [popOf_nil] at hx
            exact absurd hx (by decide)
        · rw [rainTips, if_neg hcond] at h1
          simp at h1
      · exact absurd (mem_singleton_if h1) (by decide)
      · exact absurd (mem_singleton_if h1) (by decide)
    · intro hrain
      have hcond :
          (strIncludes (descOf cur) "rain" || decide ((40 : ℤ) ≤ popOf ([] : List AdviceFc))) = true := by
        simp [hrain]
      have hin : umbrellaTip ∈ rainTips cur [] := by
        rw [rainTips, if_pos hcond]
        simp
      rw [ruleTips]
      simp only [List.mem_append]
      tauto

/-- C10 witness: with every numeric field absent and an empty forecast but a
rainy description, only the umbrella condition can fire and does. -/
theorem rule_engine_absent_defaults_w :
    humidityTip ∉ ruleTips ⟨some "rain", none, none, none, none⟩ [] ∧
    windTip ∉ ruleTips ⟨some "rain", none, none, none, none⟩ [] ∧
    popOf ([] : List AdviceFc) = 0 ∧
    umbrellaTip ∈ ruleTips ⟨some "rain", none, none, none, none⟩ [] :=
  ⟨(rule_engine_absent_defaults ⟨some "rain", none, none, none, none⟩ []).1 rfl,
   (rule_engine_absent_defaults ⟨some "rain", none, none, none, none⟩ []).2.1 rfl,
   ((rule_engine_absent_defaults ⟨some "rain", none, none, none, none⟩ []).2.2 rfl).1,
   (((rule_engine_absent_defaults ⟨some "rain", none, none, none, none⟩ []).2.2 rfl).2).mpr
     (by decide)⟩

/-! ## Upstream weather payloads and normalization (script.js lines 137–165)

JS source:
```
const normalized = {
  location: { name, state: state || "", country, lat, lon },
  current: {
    description: current.weather?.[0]?.description || "",
    temp: current.main?.temp,
    feels_like: current.main?.feels_like,
    humidity: current.main?.humidity,
    wind_speed: current.wind?.speed,
    clouds: current.clouds?.all,
    dt: current.dt
  },
  forecast: forecast.list
    .reduce((days, item) => {
      const day = item.dt_txt.split(" ")[0];
      if (!days.find(d => d.day === day)) {
        days.push({ day, temp: item.main?.temp, pop: item.pop,
                    description: item.weather?.[0]?.description || "" });
      }
      return days;
    }, [])
    .slice(0, 5)
};
```
-/

/-- An element of an upstream `weather` array. -/
structure WeatherCond where
  description : Option String

/-- The upstream `main` object. -/
structure MainRec where
  temp : Option ℚ
  feels_like : Option ℚ
  humidity : Option ℚ

structure WindRec where
  speed : Option ℚ

structure CloudsRec where
  all : Option ℚ

/-- The upstream current-conditions payload. -/
structure CurrentPayload where
  weather : List WeatherCond
  main : Option MainRec
  wind : Option WindRec
  clouds : Option CloudsRec
  dt : Option ℤ

/-- One 3-hour entry of the upstream forecast payload. -/
structure FcItem where
  dt_txt : String
  main : Option MainRec
  pop : Option ℚ
  weather : List WeatherCond

/-- The upstream forecast payload. -/
structure ForecastPayload where
  list : List FcItem

/-- The normalized `current` record built by the handler. -/
structure NormCurrent where
  description : String
  temp : Option ℚ
  feels_like : Option ℚ
  humidity : Option ℚ
  wind_speed : Option ℚ
  clouds : Option ℚ
  dt : Option ℤ

/-- A normalized forecast day. -/
structure FcDay where
  day : String
  temp : Option ℚ
  pop : Option ℚ
  description : String

/-- `item.dt_txt.split(" ")[0]`: the prefix of `dt_txt` before the first
space. -/
def dayOf (it : FcItem) : String :=
  ⟨it.dt_txt.data.takeWhile (fun c => c != ' ')⟩

/-- The forecast-day record pushed for `item`. -/
def mkFcDay (it : FcItem) : FcDay :=
  ⟨dayOf it, it.main.bind MainRec.temp, it.pop,
   ((it.weather.head?).bind WeatherCond.description).getD ""⟩

/-- One step of the `reduce`: push unless an entry with the same `day`
exists (`days.find(d => d.day === day)`). -/
def fcStep (days : List FcDay) (it : FcItem) : List FcDay :=
  if days.any (fun d => d.day == dayOf it) then days else days ++ [mkFcDay it]

/-- The `reduce((days, item) => …, [])`. -/
def dedupeByDay (l : List FcItem) : List FcDay :=
  l.foldl fcStep []

/-- `forecast.list.reduce(…).slice(0, 5)`. -/
def normalizeForecast (l : List FcItem) : List FcDay :=
  (dedupeByDay l).take 5

/-- `normalized.current`. -/
def normalizeCurrent (p : CurrentPayload) : NormCurrent :=
  ⟨((p.weather.head?).bind WeatherCond.description).getD "",
   p.main.bind MainRec.temp,
   p.main.bind MainRec.feels_like,
   p.main.bind MainRec.humidity,
   p.wind.bind WindRec.speed,
   p.clouds.bind CloudsRec.all,
   p.dt⟩

/-- The first forecast item carrying a given calendar day. -/
def dayFind (l : List FcItem) (d : String) : Option FcItem :=
  l.find? (fun x => dayOf x == d)

theorem foldl_fcStep_day_nodup : ∀ (l : List FcItem) (acc : List FcDay),
    (acc.map FcDay.day).Nodup → ((l.foldl fcStep acc).map FcDay.day).Nodup := by
  intro l
  induction l with
  | nil => intro acc h; simpa using h
  | cons it rest ih =>
    intro acc h
    rw [List.foldl_cons]
    apply ih
    by_cases hc : (acc.any fun d => d.day == dayOf it) = true
    · rw [fcStep, if_pos hc]; exact h
    · rw [fcStep, if_neg hc, List.map_append, List.nodup_append]
      refine ⟨h, by simp, ?_⟩
      intro a ha hb
      simp only [List.map_cons, List.map_nil, List.mem_singleton] at hb
      rw [List.any_eq_true] at hc
      apply hc
      rcases List.mem_map.mp ha with ⟨d, hd, rfl⟩
      exact ⟨d, hd, by simp [hb, mkFcDay]⟩

theorem foldl_fcStep_day_sorted : ∀ (l : List FcItem) (acc : List FcDay),
    List.Pairwise (fun a b => strLtB a b = true) (acc.map FcDay.day) →
    List.Pairwise (fun a b => strLeB a b = true) (l.map dayOf) →
    (∀ a ∈ acc.map FcDay.day, ∀ x ∈ l, strLeB a (dayOf x) = true) →
    List.Pairwise (fun a b => strLtB a b = true) ((l.foldl fcStep acc).map FcDay.day) := by
  intro l
  induction l with
  | nil => intro acc hacc _ _; simpa using hacc
  | cons it rest ih =>
    intro acc hacc hl hbound
    rw [List.foldl_cons]
    rw [List.map_cons, List.pairwise_cons] at hl
    obtain ⟨hhead, htail⟩ := hl
    by_cases hc : (acc.any fun d => d.day == dayOf it) = true
    · rw [fcStep, if_pos hc]
      exact ih acc hacc htail
        (fun a ha x hx => hbound a ha x (List.mem_cons_of_mem _ hx))
    · rw [fcStep, if_neg hc]
      apply ih (acc ++ [mkFcDay it])
      · rw [List.map_append, List.pairwise_append]
        refine ⟨hacc, by simp, ?_⟩
        intro a ha b hb
        simp only [List.map_cons, List.map_nil, List.mem_singleton] at hb
        subst hb
        apply strLtB_of_le_ne (hbound a ha it (List.mem_cons_self _ _))
        intro heq
        rw [List.any_eq_true] at hc
        apply hc
        rcases List.mem_map.mp ha with ⟨d, hd, rfl⟩
        exact ⟨d, hd, by simp [heq]⟩
      · exact htail
      · intro a ha x hx
        rw [List.map_append] at ha
        rcases List.mem_append.mp ha with h1 | h1
        · exact hbound a h1 x (List.mem_cons_of_mem _ hx)
        · simp only [List.map_cons, List.map_nil, List.mem_singleton] at h1
          subst h1
          exact hhead (dayOf x) (List.mem_map_of_mem _ hx)

theorem foldl_fcStep_firstocc (l₀ : List FcItem) : ∀ (l : List FcItem) (acc : List FcDay),
    (∀ d : String, d ∉ acc.map FcDay.day → dayFind l₀ d = dayFind l d) →
    (∀ e ∈ acc, ∃ it, dayFind l₀ e.day = some it ∧ e = mkFcDay it) →
    ∀ e ∈ l.foldl fcStep acc, ∃ it, dayFind l₀ e.day = some it ∧ e = mkFcDay it := by
  intro l
  induction l with
  | nil => intro acc _ hacc e he; exact hacc e (by simpa using he)
  | cons it rest ih =>
    intro acc hfind hacc e he
    rw [List.foldl_cons] at he
    by_cases hc : (acc.any fun d => d.day == dayOf it) = true
    · rw [fcStep, if_pos hc] at he
      refine ih acc ?_ hacc e he
      intro d hd
      rw [hfind d hd, dayFind, dayFind, List.find?_cons_of_neg]
      intro hbeq
      have heq : dayOf it = d := by simpa using hbeq
      subst heq
      rw [List.any_eq_true] at hc
      rcases hc with ⟨x, hx, hxday⟩
      have hxeq : x.day = dayOf it := by simpa using hxday
      exact hd (hxeq ▸ List.mem_map_of_mem FcDay.day hx)
    · rw [fcStep, if_neg hc] at he
      refine ih (acc ++ [mkFcDay it]) ?_ ?_ e he
      · intro d hd
        rw [List.map_append] at hd
        have hd1 : d ∉ acc.map FcDay.day := fun hin => hd (List.mem_append.mpr (Or.inl hin))
        have hd2 : d ≠ dayOf it := by
          intro heq
          exact hd (List.mem_append.mpr (Or.inr (by simp [mkFcDay, heq])))
        rw [hfind d hd1, dayFind, dayFind, List.find?_cons_of_neg]
        intro hbeq
        have heq2 : dayOf it = d := by simpa using hbeq
        exact hd2 heq2.symm
      · intro e' he'
        rcases List.mem_append.mp he' with h1 | h1
        · exact hacc e' h1
        · have he2 : e' = mkFcDay it := by simpa using h1
          subst he2
          refine ⟨it, ?_, rfl⟩
          have hnotin : dayOf it ∉ acc.map FcDay.day := by
            intro hin
            rw [List.any_eq_true] at hc
            apply hc
            rcases List.mem_map.mp hin with ⟨d, hdmem, hdeq⟩
            exact ⟨d, hdmem, by simp [hdeq]⟩
          have hday : (mkFcDay it).day = dayOf it := rfl
          rw [hday, hfind _ hnotin, dayFind, List.find?_cons_of_pos]
          simp

/-- C2: if the upstream entries' calendar dates (the `dt_txt` prefixes
before the space) are chronologically ordered, the normalized forecast has
length at most 5, no two entries share a `day`, the days are strictly
ascending, and every entry is built from the FIRST upstream item carrying
its day. -/
theorem forecast_normalization (l : List FcItem)
    (hchrono : List.Pairwise (fun a b => strLeB a b = true) (l.map dayOf)) :
    (normalizeForecast l).length ≤ 5 ∧
    ((normalizeForecast l).map FcDay.day).Nodup ∧
    List.Pairwise (fun a b => strLtB a b = true) ((normalizeForecast l).map FcDay.day) ∧
    (∀ e ∈ normalizeForecast l, ∃ it, dayFind l e.day = some it ∧ e = mkFcDay it) := by
  have hnodup : ((dedupeByDay l).map FcDay.day).Nodup :=
    foldl_fcStep_day_nodup l [] (by simp)
  have hsorted : List.Pairwise (fun a b => strLtB a b = true) ((dedupeByDay l).map FcDay.day) :=
    foldl_fcStep_day_sorted l [] (by simp) hchrono (by simp)
  have hfirst : ∀ e ∈ dedupeByDay l, ∃ it, dayFind l e.day = some it ∧ e = mkFcDay it :=
    foldl_fcStep_firstocc l l [] (fun d _ => rfl) (by simp)
  refine ⟨?_, ?_, ?_, ?_⟩
  · rw [normalizeForecast, List.length_take]
    exact min_le_left _ _
  · rw [normalizeForecast, List.map_take]
    exact List.Nodup.sublist (List.take_sublist _ _) hnodup
  · rw [normalizeForecast, List.map_take]
    exact List.Pairwise.sublist (List.take_sublist _ _) hsorted
  · intro e he
    exact hfirst e (List.take_subset _ _ he)

/-- A sample chronologically ordered upstream forecast: two readings on
2024-01-01 and one on 2024-01-02. -/
def fcSample : List FcItem :=
  [⟨"2024-01-01 00:00:00", none, some 1, []⟩,
   ⟨"2024-01-01 03:00:00", none, none, []⟩,
   ⟨"2024-01-02 00:00:00", none, none, []⟩]

/-- C2 witness: the theorem applied to the concrete sample list. -/
theorem forecast_normalization_w :
    (normalizeForecast fcSample).length ≤ 5 ∧
    ((normalizeForecast fcSample).map FcDay.day).Nodup ∧
    List.Pairwise (fun a b => strLtB a b = true) ((normalizeForecast fcSample).map FcDay.day) ∧
    (∀ e ∈ normalizeForecast fcSample, ∃ it, dayFind fcSample e.day = some it ∧ e = mkFcDay it) :=
  forecast_normalization fcSample (by decide)

/-- C8: the normalized current-conditions record carries exactly the fields
`description`, `temp`, `feels_like`, `humidity`, `wind_speed`, `clouds` and
the observation timestamp `dt` (the spec's `observedAt`); absent upstream
data passes through as `none` (empty string for the description) rather
than as a default value, and present data passes through unchanged. -/
theorem normalize_current_fields (p : CurrentPayload) :
    (p.weather = [] → (normalizeCurrent p).description = "") ∧
    (∀ w ws, p.weather = w :: ws →
      (normalizeCurrent p).description = w.description.getD "") ∧
    (p.main = none → (normalizeCurrent p).temp = none ∧
      (normalizeCurrent p).feels_like = none ∧ (normalizeCurrent p).humidity = none) ∧
    (∀ m, p.main = some m → (normalizeCurrent p).temp = m.temp ∧
      (normalizeCurrent p).feels_like = m.feels_like ∧
      (normalizeCurrent p).humidity = m.humidity) ∧
    (p.wind = none → (normalizeCurrent p).wind_speed = none) ∧
    (∀ w, p.wind = some w → (normalizeCurrent p).wind_speed = w.speed) ∧
    (p.clouds = none → (normalizeCurrent p).clouds = none) ∧
    (∀ cl, p.clouds = some cl → (normalizeCurrent p).clouds = cl.all) ∧
    (normalizeCurrent p).dt = p.dt := by
  refine ⟨?_, ?_, ?_, ?_, ?_, ?_, ?_, ?_, rfl⟩
  · intro h; simp [normalizeCurrent, h]
  · intro w ws h; simp [normalizeCurrent, h]
  · intro h; simp [normalizeCurrent, h]
  · intro m h; simp [normalizeCurrent, h]
  · intro h; simp [normalizeCurrent, h]
  · intro w h; simp [normalizeCurrent, h]
  · intro h; simp [normalizeCurrent, h]
  · intro cl h; simp [normalizeCurrent, h]

/-- C8 witness: a payload with no `weather` array, no `main`, a `wind`
object and no `clouds` normalizes to missing values, not defaults. -/
theorem normalize_current_fields_w :
    (normalizeCurrent ⟨[], none, some ⟨some 3⟩, none, some 5⟩).description = "" ∧
    (normalizeCurrent ⟨[], none, some ⟨some 3⟩, none, some 5⟩).temp = none ∧
    (normalizeCurrent ⟨[], none, some ⟨some 3⟩, none, some 5⟩).wind_speed = some 3 ∧
    (normalizeCurrent ⟨[], none, some ⟨some 3⟩, none, some 5⟩).clouds = none :=
  ⟨(normalize_current_fields _).1 rfl,
   ((normalize_current_fields _).2.2.1 rfl).1,
   (normalize_current_fields _).2.2.2.2.2.1 ⟨some 3⟩ rfl,
   (normalize_current_fields _).2.2.2.2.2.2.1 rfl⟩

/-! ## The `/api/weather` handler (script.js lines 112–173)

Request flow: trim the `city` query (400 when blank, before any upstream
call); probe the cache under `"wx:" + city.toLowerCase()`; geocode (a
transport/HTTP failure throws → 500, an empty match list → 404); fetch
current + forecast concurrently (either failing throws → 500); otherwise
answer 200 with the normalized payload, which is also inserted into the
cache.  `geoCalls`/`curCalls`/`fcCalls` count the upstream requests issued
(the two weather fetches are issued together by `Promise.all`, so both
count as issued even when one of them fails). -/

/-- One match of the upstream geocoding response
(`const { lat, lon, name, country, state } = geo[0]`). -/
structure GeoMatch where
  lat : ℚ
  lon : ℚ
  name : String
  country : String
  state : Option String

/-- `normalized.location`. -/
structure Location where
  name : String
  state : String
  country : String
  lat : ℚ
  lon : ℚ

/-- `normalized`: the payload returned by the weather endpoint and stored
in the cache. -/
structure NormalizedWeather where
  location : Location
  current : NormCurrent
  forecast : List FcDay

/-- Outcomes of the three upstream calls: `none` is a transport or
HTTP-level failure (`fetch` threw or `resp.ok` was false). -/
structure WxEnv where
  geo : Option (List GeoMatch)
  cur : Option CurrentPayload
  fc : Option ForecastPayload

/-- A response body: either `{error: msg}` or the normalized payload. -/
inductive WxBody
  | err (msg : String)
  | ok (w : NormalizedWeather)

/-- Observables of one handler run: HTTP status, body, the cache after the
run, and how many times each upstream endpoint was called. -/
structure WxResult where
  status : ℕ
  body : WxBody
  cacheAfter : Cache NormalizedWeather
  geoCalls : ℕ
  curCalls : ℕ
  fcCalls : ℕ

/-- The whole `normalized` object. -/
def normalizeWeather (g : GeoMatch) (cp : CurrentPayload) (fp : ForecastPayload) :
    NormalizedWeather :=
  ⟨⟨g.name, g.state.getD "", g.country, g.lat, g.lon⟩,
   normalizeCurrent cp, normalizeForecast fp.list⟩

/-- `` `wx:${city.toLowerCase()}` ``. -/
def cacheKeyOf (city : String) : String :=
  "wx:" ++ jsLower city

/-- The whole `/api/weather` request handler, run at time `now` with query
parameter `cityQ` against cache `c`. -/
def weatherHandler (env : WxEnv) (now : ℤ) (cityQ : Option String)
    (c : Cache NormalizedWeather) : WxResult :=
  let city := jsTrim (cityQ.getD "")
  if city = "" then ⟨400, .err "city is required", c, 0, 0, 0⟩
  else
    match getCache now (cacheKeyOf city) c with
    | (some d, c1) => ⟨200, .ok d, c1, 0, 0, 0⟩
    | (none, c1) =>
      match env.geo with
      | none => ⟨500, .err "Server error fetching weather", c1, 1, 0, 0⟩
      | some [] => ⟨404, .err "City not found", c1, 1, 0, 0⟩
      | some (g :: _) =>
        match env.cur, env.fc with
        | some cp, some fp =>
          let nw := normalizeWeather g cp fp
          ⟨200, .ok nw, setCache now (cacheKeyOf city) nw c1, 1, 1, 1⟩
        | _, _ => ⟨500, .err "Server error fetching weather", c1, 1, 1, 1⟩

/-- C4: a blank city gives 400 with no upstream calls; on a cache miss,
a failed geocoding call gives 500, an empty geocoding result gives 404, a
failure of either weather call gives 500, and full success gives 200 with
the normalized payload; every non-200 response carries an `{error: msg}`
body. -/
theorem weather_endpoint_statuses (env : WxEnv) (now : ℤ) (q : Option String)
    (c : Cache NormalizedWeather) :
    (jsTrim (q.getD "") = "" →
      weatherHandler env now q c = ⟨400, .err "city is required", c, 0, 0, 0⟩) ∧
    (jsTrim (q.getD "") ≠ "" →
      (getCache now (cacheKeyOf (jsTrim (q.getD ""))) c).1 = none →
      ((env.geo = none → (weatherHandler env now q c).status = 500) ∧
       (env.geo = some [] → (weatherHandler env now q c).status = 404) ∧
       (∀ g gs, env.geo = some (g :: gs) →
         ((env.cur = none ∨ env.fc = none) →
            (weatherHandler env now q c).status = 500) ∧
         (∀ cp fp, env.cur = some cp → env.fc = some fp →
            (weatherHandler env now q c).status = 200 ∧
            (weatherHandler env now q c).body = .ok (normalizeWeather g cp fp))))) ∧
    ((weatherHandler env now q c).status ≠ 200 →
      ∃ msg, (weatherHandler env now q c).body = WxBody.err msg) := by
  refine ⟨?_, ?_, ?_⟩
  · intro h
    simp [weatherHandler, h]
  · intro hne hmiss
    rcases hgc : getCache now (cacheKeyOf (jsTrim (q.getD ""))) c with ⟨v, c1⟩
    have hv : v = none := by rw [hgc] at hmiss; exact hmiss
    subst hv
    refine ⟨?_, ?_, ?_⟩
    · intro hgeo
      simp [weatherHandler, hne, hgc, hgeo]
    · intro hgeo
      simp [weatherHandler, hne, hgc, hgeo]
    · intro g gs hgeo
      constructor
      · intro hcf
        rcases hcf with h | h
        · cases hfc : env.fc <;> simp [weatherHandler, hne, hgc, hgeo, h, hfc]
        · cases hcur : env.cur <;> simp [weatherHandler, hne, hgc, hgeo, h, hcur]
      · intro cp fp hcur hfc
        simp [weatherHandler, hne, hgc, hgeo, hcur, hfc]
  · intro hst
    by_cases h0 : jsTrim (q.getD "") = ""
    · exact ⟨"city is required", by simp [weatherHandler, h0]⟩
    · rcases hgc : getCache now (cacheKeyOf (jsTrim (q.getD ""))) c with ⟨v, c1⟩
      cases v with
      | some d => exact absurd (by simp [weatherHandler, h0, hgc]) hst
      | none =>
        cases hgeo : env.geo with
        | none =>
          exact ⟨"Server error fetching weather", by simp [weatherHandler, h0, hgc, hgeo]⟩
        | some gl =>
          cases gl with
          | nil => exact ⟨"City not found", by simp [weatherHandler, h0, hgc, hgeo]⟩
          | cons g gs =>
            cases hcur : env.cur with
            | none =>
              exact ⟨"Server error fetching weather",
                by simp [weatherHandler, h0, hgc, hgeo, hcur]⟩
            | some cp =>
              cases hfc : env.fc with
              | none =>
                exact ⟨"Server error fetching weather",
                  by simp [weatherHandler, h0, hgc, hgeo, hcur, hfc]⟩
              | some fp =>
                exact absurd (by simp [weatherHandler, h0, hgc, hgeo, hcur, hfc]) hst

/-- C4 witness: a blank city is rejected with 400 and zero upstream calls,
and an empty geocoding match list yields 404. -/
theorem weather_endpoint_statuses_w :
    weatherHandler ⟨none, none, none⟩ 7 (some " ") (emptyCache NormalizedWeather)
      = ⟨400, .err "city is required", emptyCache NormalizedWeather, 0, 0, 0⟩ ∧
    (weatherHandler ⟨some [], none, none⟩ 7 (some "x") (emptyCache NormalizedWeather)).status
      = 404 :=
  ⟨(weather_endpoint_statuses ⟨none, none, none⟩ 7 (some " ")
      (emptyCache NormalizedWeather)).1 (by decide),
   ((weather_endpoint_statuses ⟨some [], none, none⟩ 7 (some "x")
      (emptyCache NormalizedWeather)).2.1 (by decide) rfl).2.1 rfl⟩

/-- C5: starting from an empty cache, a successful weather request for
`s₁` followed within the TTL by a request for `s₂` equal to `s₁` up to case
(after trimming) returns the identical payload, and the second run issues
no upstream call at all: across the pair, geocoding, current and forecast
are each called exactly once. -/
theorem weather_cache_idempotent (env₁ env₂ : WxEnv) (t₁ t₂ : ℤ) (s₁ s₂ : String)
    (g : GeoMatch) (gs : List GeoMatch) (cp : CurrentPayload) (fp : ForecastPayload)
    (h₁ : jsTrim s₁ ≠ "") (h₂ : jsTrim s₂ ≠ "")
    (hkey : jsLower (jsTrim s₂) = jsLower (jsTrim s₁))
    (hgeo : env₁.geo = some (g :: gs)) (hcur : env₁.cur = some cp)
    (hfc : env₁.fc = some fp)
    (hdt : t₂ - t₁ ≤ cacheTTLms) :
    weatherHandler env₁ t₁ (some s₁) (emptyCache NormalizedWeather) =
      ⟨200, .ok (normalizeWeather g cp fp),
        setCache t₁ (cacheKeyOf (jsTrim s₁)) (normalizeWeather g cp fp)
          (emptyCache NormalizedWeather), 1, 1, 1⟩ ∧
    weatherHandler env₂ t₂ (some s₂)
        (weatherHandler env₁ t₁ (some s₁) (emptyCache NormalizedWeather)).cacheAfter =
      ⟨200, .ok (normalizeWeather g cp fp),
        setCache t₁ (cacheKeyOf (jsTrim s₁)) (normalizeWeather g cp fp)
          (emptyCache NormalizedWeather), 0, 0, 0⟩ := by
  have hg1 : getCache t₁ (cacheKeyOf (jsTrim s₁)) (emptyCache NormalizedWeather)
      = (none, emptyCache NormalizedWeather) := rfl
  have e₁ : weatherHandler env₁ t₁ (some s₁) (emptyCache NormalizedWeather) =
      ⟨200, .ok (normalizeWeather g cp fp),
        setCache t₁ (cacheKeyOf (jsTrim s₁)) (normalizeWeather g cp fp)
          (emptyCache NormalizedWeather), 1, 1, 1⟩ := by
    simp [weatherHandler, h₁, hg1, hgeo, hcur, hfc]
  refine ⟨e₁, ?_⟩
  rw [e₁]
  have hkey2 : cacheKeyOf (jsTrim s₂) = cacheKeyOf (jsTrim s₁) := by
    rw [cacheKeyOf, cacheKeyOf, hkey]
  have hc2 : getCache t₂ (cacheKeyOf (jsTrim s₁))
      (setCache t₁ (cacheKeyOf (jsTrim s₁)) (normalizeWeather g cp fp)
        (emptyCache NormalizedWeather))
      = (some (normalizeWeather g cp fp),
         setCache t₁ (cacheKeyOf (jsTrim s₁)) (normalizeWeather g cp fp)
           (emptyCache NormalizedWeather)) := by
    simp [getCache, setCache, not_lt.mpr hdt]
  simp [weatherHandler, h₂, hkey2, hc2]

/-- C5 witness: "Pune" at time 0 then " PUNE " at time 300000 (exactly the
TTL) against the same environment: the second answer is the cached first
payload with zero upstream calls. -/
theorem weather_cache_idempotent_w :
    (weatherHandler ⟨some [⟨10, 20, "Pune", "IN", none⟩], some ⟨[], none, none, none, none⟩,
        some ⟨[]⟩⟩ 0 (some "Pune") (emptyCache NormalizedWeather)).status = 200 ∧
    (weatherHandler ⟨some [⟨10, 20, "Pune", "IN", none⟩], some ⟨[], none, none, none, none⟩,
        some ⟨[]⟩⟩ 300000 (some " PUNE ")
        (weatherHandler ⟨some [⟨10, 20, "Pune", "IN", none⟩], some ⟨[], none, none, none, none⟩,
          some ⟨[]⟩⟩ 0 (some "Pune") (emptyCache NormalizedWeather)).cacheAfter).body =
      (weatherHandler ⟨some [⟨10, 20, "Pune", "IN", none⟩], some ⟨[], none, none, none, none⟩,
        some ⟨[]⟩⟩ 0 (some "Pune") (emptyCache NormalizedWeather)).body ∧
    (weatherHandler ⟨some [⟨10, 20, "Pune", "IN", none⟩], some ⟨[], none, none, none, none⟩,
        some ⟨[]⟩⟩ 300000 (some " PUNE ")
        (weatherHandler ⟨some [⟨10, 20, "Pune", "IN", none⟩], some ⟨[], none, none, none, none⟩,
          some ⟨[]⟩⟩ 0 (some "Pune") (emptyCache NormalizedWeather)).cacheAfter).geoCalls = 0 ∧
    (weatherHandler ⟨some [⟨10, 20, "Pune", "IN", none⟩], some ⟨[], none, none, none, none⟩,
        some ⟨[]⟩⟩ 0 (some "Pune") (emptyCache NormalizedWeather)).geoCalls = 1 := by
  have h := weather_cache_idempotent
    ⟨some [⟨10, 20, "Pune", "IN", none⟩], some ⟨[], none, none, none, none⟩, some ⟨[]⟩⟩
    ⟨some [⟨10, 20, "Pune", "IN", none⟩], some ⟨[], none, none, none, none⟩, some ⟨[]⟩⟩
    0 300000 "Pune" " PUNE " ⟨10, 20, "Pune", "IN", none⟩ [] ⟨[], none, none, none, none⟩
    ⟨[]⟩ (by decide) (by decide) (by decide) rfl rfl rfl (by decide)
  rw [h.2, h.1]
  exact ⟨rfl, rfl, rfl, rfl⟩
